import Mathlib

/-!
Verification development for the ICON-2I ingestion / retrieval pipeline
(`process_icon2i_hub`).  Python sources are shallowly embedded: numpy
arrays over the step axis become lists of grids with rational entries,
datetimes become an explicit record type, network and filesystem effects
become explicit event traces, and exceptions become an `Except` channel.
-/

namespace Icon2i

/-! ## Constants (`icon_2i/_consts.py`)

`_VARIABLES_LIST` is produced by `dir(_VARIABLES)`, which sorts the
attribute names alphabetically; `_VARIABLE_CODE` lower-cases the attribute
name (spaces never occur in attribute names, so `replace(' ', '_')` is the
identity there). -/

def VARIABLES_DICT : List (String × String) :=
  [ ("dewpoint_temperature", "2 metre dewpoint temperature"),
    ("pressure_reduced_to_msl", "Pressure Reduced to MSL"),
    ("snow_depth_water_equivalent", "Snow depth water equivalent"),
    ("temperature", "2 metre temperature"),
    ("temperature_g", "Temperature (G)"),
    ("total_cloud_cover", "Total Cloud Cover"),
    ("total_precipitation", "Total Precipitation"),
    ("u_wind_component", "10 metre U wind component"),
    ("v_wind_component", "10 metre V wind component") ]

def variableCodes : List String := VARIABLES_DICT.map Prod.fst

/-- Keys of `_DATA_CUBE_PROCESSING`: the variables whose data cube is marked
for de-cumulation (first difference along the step axis).  Currently only
total precipitation. -/
def cumulativeVariables : List String := ["total_precipitation"]

/-! ## Grib time-series assembler (`_ICON2IIngestor.icon_2I_time_concat`)

A decoded grid (one forecast step, after the `9999.0 -> nan` sentinel
masking) is modelled as a flattened list of rational values; the per-file
stacked array `np_dataset` (after selecting the messages matching the
variable and truncating to 12 or 72 steps) is a list of grids. -/

abbrev Grid := List ℚ

/-- Element-wise subtraction of two grids (numpy broadcasting on grids of
equal shape). -/
def gridSub (a b : Grid) : Grid := List.zipWith (fun x y => x - y) a b

/-- `np.diff(A, axis=0)`: `D[i] = A[i+1] - A[i]`. -/
def npDiff (A : List Grid) : List Grid := List.zipWith gridSub A.tail A

/-- `np.concatenate(([A[0]], np.diff(A, axis=0)), axis=0)` — the transform
at line 173 of `icon_2i_ingestor.py`, and also the body of the
`_DATA_CUBE_PROCESSING` entry for total precipitation in `_consts.py`. -/
def decumulate (A : List Grid) : List Grid :=
  match A with
  | [] => []
  | a :: _ => a :: npDiff A

/-- `xr.where(x < 0, 0, x)` applied to one grid (line 192). -/
def clampGrid (g : Grid) : Grid := g.map (fun x => if x < 0 then 0 else x)

/-- Data-cube part of `icon_2I_time_concat` (lines 146-193): for each file
the stacked array is first-differenced with the first step kept
(line 173 — note: applied unconditionally, whatever `variable` is; the
`_DATA_CUBE_PROCESSING` table of `_consts.py` is never consulted), the
per-file results are concatenated along time, and finally negative values
are clamped to 0 (line 192).  Sorting by `(time, lat, lon)` only permutes
coordinates and is dropped from this value-level model. -/
def icon_2I_time_concat_data (varCode : String) (fileStacks : List (List Grid)) :
    List Grid :=
  let _ := varCode
  ((fileStacks.map decumulate).flatten).map clampGrid

/-- The de-cumulation step as the specification words it: first-difference
the stacked array if and only if the variable is marked cumulative
(`_DATA_CUBE_PROCESSING` membership), leave the data of a non-cumulative
variable untouched.  Written only to be compared with
`icon_2I_time_concat_data`. -/
def spec_time_concat_data (varCode : String) (fileStacks : List (List Grid)) :
    List Grid :=
  ((fileStacks.map (fun A =>
      if varCode ∈ cumulativeVariables then decumulate A else A)).flatten).map clampGrid

/-! ## Datetimes

A Python `datetime.datetime` (UTC-naive, as used throughout the pipeline):
the calendar date is carried as a day number (days since 1970-01-01) and
the time of day as separate fields, mirroring the attribute accesses in
the source (`'.hour'`, `'.minute'`, `'.date()'`, ...). -/

structure PyDateTime where
  date : Int
  hour : Nat
  minute : Nat
  second : Nat
  microsecond : Nat
deriving DecidableEq, Repr

/-- Total microseconds of a datetime, the order used for datetime
comparisons and `timedelta` arithmetic. -/
def PyDateTime.toMicro (t : PyDateTime) : Int :=
  (((t.date * 24 + (t.hour : Int)) * 60 + (t.minute : Int)) * 60 + (t.second : Int)) * 1000000
    + (t.microsecond : Int)

/-- `t.replace(minute=(t.minute // 5) * 5, second=0, microsecond=0)`
(lines 107-108 of `icon_2i_retriever.py`). -/
def roundDown5 (t : PyDateTime) : PyDateTime :=
  { t with minute := (t.minute / 5) * 5, second := 0, microsecond := 0 }

/-- `t + datetime.timedelta(hours=1)` for a datetime with `hour < 24`. -/
def plusOneHour (t : PyDateTime) : PyDateTime :=
  if t.hour + 1 < 24 then { t with hour := t.hour + 1 }
  else { t with date := t.date + 1, hour := 0 }

def microsPerDay : Int := 86400000000

def microsPer48h : Int := 48 * 3600 * 1000000

/-- Civil calendar date (year, month, day) of a day number counted from
1970-01-01 (standard era-based conversion, valid for the nonnegative day
numbers this pipeline handles). -/
def civilFromDays (z0 : Int) : Int × Int × Int :=
  let z := z0 + 719468
  let era := (if 0 ≤ z then z else z - 146096) / 146097
  let doe := z - era * 146097
  let yoe := (doe - doe / 1460 + doe / 36524 - doe / 146096) / 365
  let y := yoe + era * 400
  let doy := doe - (365 * yoe + yoe / 4 - yoe / 100)
  let mp := (5 * doy + 2) / 153
  let d := doy - (153 * mp + 2) / 5 + 1
  let m := mp + (if mp < 10 then 3 else -9)
  (y + (if m ≤ 2 then 1 else 0), m, d)

def pad2 (n : Int) : String :=
  if n < 10 then "0" ++ toString n else toString n

/-- `datetime.isoformat(timespec='seconds')`: `YYYY-MM-DDTHH:MM:SS`. -/
def isoString (t : PyDateTime) : String :=
  let c := civilFromDays t.date
  toString c.1 ++ "-" ++ pad2 c.2.1 ++ "-" ++ pad2 c.2.2 ++ "T" ++
    pad2 (t.hour : Int) ++ ":" ++ pad2 (t.minute : Int) ++ ":" ++ pad2 (t.second : Int)

/-! ## Exceptions and statuses

`StatusException` (module `utils/status_exception.py`) is part of this
repository but its source is not in the tree; only its call sites are.
Its statuses are the taxonomy of spec section 7. -/

inductive Status
  | OK
  | INVALID
  | DENIED
  | ERROR
deriving DecidableEq, Repr

/-- A raised Python exception: either a `StatusException` carrying a
taxonomy status, or one of the builtin exceptions the embedded code can
raise. -/
inductive PyExc
  | statusExc (s : Status) (msg : String)
  | valueError (msg : String)
  | attributeError (msg : String)
  | unboundLocalError (msg : String)
  | indexError (msg : String)
deriving DecidableEq, Repr

def PyExc.message : PyExc → String
  | .statusExc _ m => m
  | .valueError m => m
  | .attributeError m => m
  | .unboundLocalError m => m
  | .indexError m => m

/-- Modelled from the spec: the `StatusException` class of
`utils/status_exception.py` is absent from the available sources.  Spec
section 7 states that validation failures (status `INVALID`) "are raised
immediately and never retried" while ingestion/retrieval/raster failures
"are caught at the top-level run boundary, wrapped with context, and
re-raised as ERROR"; so at the generic handler of `run`
(`except Exception: raise StatusException(ERROR, ...)`) a
`StatusException` passes through unwrapped and only other exceptions are
wrapped as `ERROR` with the contextual message prefix. -/
def runBoundary (wrapMsg : String) (body : Except PyExc α) : Except PyExc α :=
  match body with
  | .ok a => .ok a
  | .error (.statusExc s m) => .error (.statusExc s m)
  | .error e => .error (.statusExc .ERROR (wrapMsg ++ e.message))

/-- `True` exactly when the computation raised a `StatusException` with
status `INVALID`. -/
def raisesINVALID : Except PyExc α → Bool
  | .error (.statusExc .INVALID _) => true
  | _ => false

/-! ## Date partitioner (`_ICON2IIngestor.get_single_date_dataset`)

A timestep is represented by the day number of its calendar date (the
partitioner looks only at `dataset.time.dt.date`); a date partition is the
pair of a date and the timesteps falling on it. -/

/-- `sorted(list(set(dataset.time.dt.date.values)))`. -/
def datasetDates (times : List Int) : List Int :=
  times.dedup.insertionSort (· ≤ ·)

/-- The per-date subsets built by the loop at lines 215-218: one
`(date, subset)` pair per distinct date. -/
def date_datasets (times : List Int) : List (Int × List Int) :=
  (datasetDates times).map (fun d => (d, times.filter (fun t => t = d)))

/-- `get_single_date_dataset` (lines 213-222): group by date, then discard
any partition dated strictly before today whose timestep count is exactly
12. -/
def get_single_date_dataset (times : List Int) (today : Int) :
    List (Int × List Int) :=
  (date_datasets times).filter (fun p => ! decide (p.1 < today ∧ p.2.length = 12))

/-! ## Catalog client and raw fetcher (`_ICON2IIngestor`) -/

structure CatalogEntry where
  forecast_run : PyDateTime
  filename : String
deriving DecidableEq, Repr

/-- An HTTP response: its status code and (when the request succeeded) the
already-parsed body. -/
structure HttpResponse (α : Type) where
  status_code : Nat
  body : α
deriving Repr

/-- `get_avaliable_forecast_runs` (lines 39-52): on a 200 response the
parsed listing is returned; on any other status only a message is printed
and the `return avaliable_data` line then reads a never-assigned local,
raising `UnboundLocalError`. -/
def get_avaliable_forecast_runs (resp : HttpResponse (List CatalogEntry)) :
    Except PyExc (List CatalogEntry) :=
  if resp.status_code = 200 then .ok resp.body
  else .error (.unboundLocalError
    "local variable avaliable_data referenced before assignment")

/-- `download_icon2I_data` (lines 130-143), given the response status for
each file the catalog resolved: a 200 response writes the file into the
temporary folder and collects its path; any other status only prints
`Request error ... with file ...` and the loop continues, so the file is
skipped and the partial list of paths is returned without error. -/
def download_icon2I_data (tmpFolder : String) (responses : List (String × Nat)) :
    List String :=
  responses.filterMap (fun r =>
    if r.2 = 200 then some (tmpFolder ++ "/" ++ r.1) else none)

/-! ## Retrieval resolver (`_ICON2IRetriever.retrieve_icon2I_data`)

A partition persisted in the source bucket is identified by its canonical
key `(variable code, date)`; the bucket is the list of keys present.  The
resolver state tracks the bucket contents and how many times the full
ingestion path (`_ICON2IIngestor().run`) was invoked. -/

structure ResolverState where
  bucket : List (String × Int)
  ingestorRuns : Nat
deriving DecidableEq, Repr

/-- `check_date_dataset_avaliability` (lines 159-166): all requested dates
must be present for the variable, else `None`.  Requested dates are
pairwise distinct (they come from a daily `pd.date_range`), so the length
comparison of the source is the all-present test. -/
def check_date_dataset_avaliability (varCode : String) (requestedDates : List Int)
    (bucketKeys : List (String × Int)) : Option (List (String × Int)) :=
  if requestedDates.all (fun d => decide ((varCode, d) ∈ bucketKeys)) then
    some (requestedDates.map (fun d => (varCode, d)))
  else none

/-- One invocation of `_ICON2IIngestor().run` from the resolver
(lines 179-185), abstracted to its effect on the resolver state: the run
covers all requested variables at once, and with
`bucket_destination = bucket_source` present it uploads one partition per
(variable, requested date) to that bucket. -/
def ingestAllVariables (vars : List String) (requestedDates : List Int)
    (bucketSource : Option String) (st : ResolverState) : ResolverState :=
  { bucket :=
      if bucketSource.isSome then
        st.bucket ++ ((vars.map (fun v => requestedDates.map (fun d => (v, d)))).flatten)
      else st.bucket,
    ingestorRuns := st.ingestorRuns + 1 }

/-- One iteration of the per-variable loop of `retrieve_icon2I_data`
(lines 172-188): the availability check runs only when a `bucket_source`
is configured, and on a miss (or with no `bucket_source` at all) the full
ingestor is run for all requested variables at once. -/
def resolverStep (allVars : List String) (requestedDates : List Int)
    (bucketSource : Option String) (st : ResolverState) (v : String) : ResolverState :=
  let uris :=
    if bucketSource.isSome then
      check_date_dataset_avaliability v requestedDates st.bucket
    else none
  match uris with
  | some _ => st
  | none => ingestAllVariables allVars requestedDates bucketSource st

/-- The per-variable loop of `retrieve_icon2I_data` (lines 172-229),
restricted to its store/backfill orchestration. -/
def retrieve_icon2I_data_model (vars : List String) (requestedDates : List Int)
    (bucketSource : Option String) (st0 : ResolverState) : ResolverState :=
  vars.foldl (resolverStep vars requestedDates bucketSource) st0

/-! ## Argument validation

I/O performed while a request is being processed is recorded as a trace of
events.  The dynamic-type branches of the Python validators (a number
where a string is expected, etc.) always raise `INVALID` before any I/O
and are not claim-relevant; inputs are therefore modelled at the types the
remaining branches inspect.  An ISO datetime string is modelled by its
parse result (`none` for a string `datetime.fromisoformat` rejects). -/

inductive IOEvent
  | netCatalogRequest
  | fsMakeDirs (path : String)
deriving DecidableEq, Repr

def IOEvent.isNet : IOEvent → Bool
  | .netCatalogRequest => true
  | _ => false

structure IsoInput where
  parseResult : Option PyDateTime
deriving DecidableEq, Repr

inductive TimeRangeInput
  | noTime
  | single (s : IsoInput)
  | pair (s e : IsoInput)
deriving DecidableEq, Repr

/-- Python `str.startswith`, evaluated on the character lists. -/
def pyStartsWith (s pre : String) : Bool := pre.data.isPrefixOf s.data

/-- Python `str.endswith`, evaluated on the character lists. -/
def pyEndsWith (s suf : String) : Bool := suf.data.isSuffixOf s.data

def splitOnChar (c : Char) : List Char → List (List Char)
  | [] => [[]]
  | x :: xs =>
      let r := splitOnChar c xs
      if x = c then [] :: r
      else
        match r with
        | [] => [[x]]
        | h :: t => (x :: h) :: t

def joinWithSlash : List (List Char) → List Char
  | [] => []
  | [x] => x
  | x :: xs => x ++ '/' :: joinWithSlash xs

/-! ### Retriever validation (`_ICON2IRetriever.argument_validation`) -/

structure RetInputs where
  variableArg : Option (List String)
  lat_range : Option (List ℚ)
  long_range : Option (List ℚ)
  time_range : TimeRangeInput
  out_format : Option String
  bucket_source : Option String
  bucket_destination : Option String
  out : Option String
deriving Repr

structure RetValidated where
  variableArg : List String
  lat_range : Option (List ℚ)
  long_range : Option (List ℚ)
  time_start : PyDateTime
  time_end : PyDateTime
  out_format : String
  bucket_source : Option String
  bucket_destination : Option String
  out : Option String
deriving Repr

/-- The `variable` checks shared by both validators: `None` defaults to
every known variable code; each given code must be a key of
`_VARIABLES_DICT`. -/
def validateVariableArg (v : Option (List String)) : Except PyExc (List String) :=
  match v with
  | none => .ok variableCodes
  | some vs =>
      if vs.all (fun x => decide (x ∈ variableCodes)) then .ok vs
      else .error (.statusExc .INVALID "Invalid variable. Must be one of the variable codes")

/-- `lat_range` checks (lines 66-74). -/
def validateLatRange (r : Option (List ℚ)) : Except PyExc (Option (List ℚ)) :=
  match r with
  | none => .ok none
  | some [a, b] =>
      if a < -90 ∨ 90 < a ∨ b < -90 ∨ 90 < b then
        .error (.statusExc .INVALID "lat_range elements must be in the range [-90, 90]")
      else if b < a then
        .error (.statusExc .INVALID "lat_range[0] must be less than lat_range[1]")
      else .ok (some [a, b])
  | some _ => .error (.statusExc .INVALID "lat_range must be a list of 2 elements")

/-- `long_range` checks (lines 76-84). -/
def validateLongRange (r : Option (List ℚ)) : Except PyExc (Option (List ℚ)) :=
  match r with
  | none => .ok none
  | some [a, b] =>
      if a < -180 ∨ 180 < a ∨ b < -180 ∨ 180 < b then
        .error (.statusExc .INVALID "long_range elements must be in the range [-180, 180]")
      else if b < a then
        .error (.statusExc .INVALID "long_range[0] must be less than long_range[1]")
      else .ok (some [a, b])
  | some _ => .error (.statusExc .INVALID "long_range must be a list of 2 elements")

/-- `time_range` checks (lines 86-110): start required and parseable; end,
when given, parseable and not before start; both rounded down to the
5-minute mark (end defaulting to the rounded start plus one hour); the
resolved end must be within the last 48 hours of `now`. -/
def validateTimeRange (tr : TimeRangeInput) (now : PyDateTime) :
    Except PyExc (PyDateTime × PyDateTime) :=
  match tr with
  | .noTime => .error (.statusExc .INVALID "Cannot process without a time valued")
  | .single s =>
      match s.parseResult with
      | none =>
          .error (.statusExc .INVALID "time_start must be a valid datetime iso-format string")
      | some ts0 =>
          let ts := roundDown5 ts0
          let te := plusOneHour ts
          if te.toMicro < now.toMicro - microsPer48h then
            .error (.statusExc .INVALID "Time range must be within the last 48 hours")
          else .ok (ts, te)
  | .pair s e =>
      match s.parseResult with
      | none =>
          .error (.statusExc .INVALID "time_start must be a valid datetime iso-format string")
      | some ts0 =>
          match e.parseResult with
          | none =>
              .error (.statusExc .INVALID "time_end must be a valid datetime iso-format string")
          | some te0 =>
              if te0.toMicro < ts0.toMicro then
                .error (.statusExc .INVALID "time_start must be less than time_end")
              else
                let ts := roundDown5 ts0
                let te := roundDown5 te0
                if te.toMicro < now.toMicro - microsPer48h then
                  .error (.statusExc .INVALID "Time range must be within the last 48 hours")
                else .ok (ts, te)

/-- `out_format` checks (lines 112-118): only `tif`, defaulting to `tif`. -/
def validateOutFormat (f : Option String) : Except PyExc String :=
  match f with
  | none => .ok "tif"
  | some s =>
      if s = "tif" then .ok s
      else .error (.statusExc .INVALID "out_format must be one of [\"tif\"]")

/-- `bucket_destination` checks (lines 120-124). -/
def validateBucketDestination (b : Option String) : Except PyExc (Option String) :=
  match b with
  | none => .ok none
  | some s =>
      if pyStartsWith s "s3://" then .ok (some s)
      else .error (.statusExc .INVALID "bucket_destination must start with \"s3://\"")

/-- `bucket_source` checks (lines 126-132): a given value must start with
`s3://`; an absent one defaults to the (already validated)
`bucket_destination`. -/
def validateBucketSource (bs bd : Option String) : Except PyExc (Option String) :=
  match bs with
  | none => .ok bd
  | some s =>
      if pyStartsWith s "s3://" then .ok (some s)
      else .error (.statusExc .INVALID "bucket_source must start with \"s3://\"")

/-- `os.path.split(p)[0]`. -/
def dirnameOf (p : String) : String :=
  let parts := splitOnChar '/' p.data
  if parts.length ≤ 1 then "" else String.mk (joinWithSlash parts.dropLast)

/-- `out` checks (lines 134-141): must end in `.tif`; afterwards the
directory part, when nonempty, is created (`os.makedirs` is skipped when
the directory already exists; the event is recorded unconditionally as an
upper bound on the I/O performed). -/
def validateOut (o : Option String) : List IOEvent × Except PyExc (Option String) :=
  match o with
  | none => ([], .ok none)
  | some s =>
      if pyEndsWith s ".tif" then
        if dirnameOf s = "" then ([], .ok (some s))
        else ([.fsMakeDirs (dirnameOf s)], .ok (some s))
      else ([], .error (.statusExc .INVALID "out must end with \".tif\""))

/-- `_ICON2IRetriever.argument_validation` (lines 36-153), with the I/O
events it performs. -/
def retriever_argument_validation (inp : RetInputs) (now : PyDateTime) :
    List IOEvent × Except PyExc RetValidated :=
  match validateVariableArg inp.variableArg with
  | .error e => ([], .error e)
  | .ok vs =>
  match validateLatRange inp.lat_range with
  | .error e => ([], .error e)
  | .ok lr =>
  match validateLongRange inp.long_range with
  | .error e => ([], .error e)
  | .ok gr =>
  match validateTimeRange inp.time_range now with
  | .error e => ([], .error e)
  | .ok tse =>
  match validateOutFormat inp.out_format with
  | .error e => ([], .error e)
  | .ok fmt =>
  match validateBucketDestination inp.bucket_destination with
  | .error e => ([], .error e)
  | .ok bd =>
  match validateBucketSource inp.bucket_source bd with
  | .error e => ([], .error e)
  | .ok bs =>
  match validateOut inp.out with
  | (evs, .error e) => (evs, .error e)
  | (evs, .ok o) =>
      (evs, .ok { variableArg := vs, lat_range := lr, long_range := gr,
                  time_start := tse.1, time_end := tse.2, out_format := fmt,
                  bucket_source := bs, bucket_destination := bd, out := o })

/-- `_ICON2IRetriever.run` (lines 272-375) up to its exception boundary:
validate, then hand the validated arguments to the retrieval/raster
pipeline, wrapping failures at the boundary (lines 370-371). -/
def retriever_run_model (pipeline : RetValidated → Except PyExc String)
    (inp : RetInputs) (now : PyDateTime) : Except PyExc String :=
  runBoundary "Error during ICON2I retriever run: "
    (match (retriever_argument_validation inp now).2 with
     | .error e => .error e
     | .ok v => pipeline v)

/-- Composition of the retriever validation with the resolver loop: the
resolver receives the validated variable list and the validated
`bucket_source`. -/
def resolver_after_validation (inp : RetInputs) (now : PyDateTime)
    (requestedDates : List Int) (bucket0 : List (String × Int)) :
    Option ResolverState :=
  match (retriever_argument_validation inp now).2 with
  | .error _ => none
  | .ok v =>
      some (retrieve_icon2I_data_model v.variableArg requestedDates v.bucket_source
        ⟨bucket0, 0⟩)

/-! ### Ingestor validation (`_ICON2IIngestor.argument_validation`) -/

structure IngInputs where
  variableArg : Option (List String)
  forecast_run : Option (List IsoInput)
  bucket_destination : Option String
  out_dir : Option String
deriving Repr

structure IngValidated where
  variableArg : List String
  requested_forecast_run : List PyDateTime
  bucket_destination : Option String
  out : String
deriving Repr

/-- The parse and 12h-interval checks of the `forecast_run` loop
(lines 90-97): an unparsable entry raises `INVALID`, as does an entry
whose hour is not 0 or 12 or whose minute/second/microsecond is nonzero.
No I/O happens here. -/
def parseForecastRuns (frs : List IsoInput) : Except PyExc (List PyDateTime) :=
  match frs with
  | [] => .ok []
  | f :: rest =>
      match f.parseResult with
      | none =>
          .error (.statusExc .INVALID
            "Invalid forecast run. Must be a valid ISO format date string")
      | some dt =>
          if (dt.hour ≠ 0 ∧ dt.hour ≠ 12) ∨ dt.minute ≠ 0 ∨ dt.second ≠ 0 ∨
              dt.microsecond ≠ 0 then
            .error (.statusExc .INVALID "Invalid forecast run. Must be a valid 12h interval")
          else (parseForecastRuns rest).map (dt :: ·)

/-- The filtering comprehension at line 98: one `ping_avaliable_runs` call
— hence one catalog network request — per parsed entry, keeping the
entries present in the listing.  A non-200 catalog response surfaces as
the `UnboundLocalError` of `get_avaliable_forecast_runs`. -/
def filterAvailableRuns (catalogResp : HttpResponse (List CatalogEntry))
    (runs : List PyDateTime) : List IOEvent × Except PyExc (List PyDateTime) :=
  match runs with
  | [] => ([], .ok [])
  | r :: rest =>
      match get_avaliable_forecast_runs catalogResp with
      | .error e => ([.netCatalogRequest], .error e)
      | .ok entries =>
          let keep := decide (r ∈ entries.map CatalogEntry.forecast_run)
          let tail := filterAvailableRuns catalogResp rest
          (.netCatalogRequest :: tail.1,
           tail.2.map (fun l => if keep then r :: l else l))

/-- The `out_dir` handling at the end of the ingestor validation
(lines 109-114): a given directory is created (a filesystem write), the
default being the scoped temporary folder. -/
def ingestorOutDirStep (vs : List String) (runs : List PyDateTime)
    (evs : List IOEvent) (inp : IngInputs) :
    List IOEvent × Except PyExc IngValidated :=
  match inp.out_dir with
  | some d =>
      (evs ++ [.fsMakeDirs d],
       .ok { variableArg := vs, requested_forecast_run := runs,
             bucket_destination := inp.bucket_destination, out := d })
  | none =>
      (evs,
       .ok { variableArg := vs, requested_forecast_run := runs,
             bucket_destination := inp.bucket_destination,
             out := "ICON_2I_SURFACE_PRESSURE_LEVELS__Ingestor" })

/-- The tail of the ingestor validation after the forecast runs are
resolved: `bucket_destination` checks (lines 103-107), then the `out_dir`
step. -/
def ingestorValidationTail (vs : List String) (runs : List PyDateTime)
    (evs : List IOEvent) (inp : IngInputs) :
    List IOEvent × Except PyExc IngValidated :=
  match inp.bucket_destination with
  | some b =>
      if pyStartsWith b "s3://" then
        ingestorOutDirStep vs runs evs inp
      else
        (evs, .error (.statusExc .INVALID "bucket_destination must start with \"s3://\""))
  | none => ingestorOutDirStep vs runs evs inp

/-- `_ICON2IIngestor.argument_validation` (lines 61-121), with the I/O
events it performs: the `variable` and `forecast_run` format checks do no
I/O, but resolving the runs against the catalog (line 98, or line 100 when
no `forecast_run` was given) issues network requests before
`bucket_destination` and `out_dir` are examined. -/
def ingestor_argument_validation (catalogResp : HttpResponse (List CatalogEntry))
    (inp : IngInputs) : List IOEvent × Except PyExc IngValidated :=
  match validateVariableArg inp.variableArg with
  | .error e => ([], .error e)
  | .ok vs =>
  match inp.forecast_run with
  | some frs =>
      match parseForecastRuns frs with
      | .error e => ([], .error e)
      | .ok runs =>
          match filterAvailableRuns catalogResp runs with
          | (evs, .error e) => (evs, .error e)
          | (evs, .ok kept) => ingestorValidationTail vs kept evs inp
  | none =>
      match get_avaliable_forecast_runs catalogResp with
      | .error e => ([.netCatalogRequest], .error e)
      | .ok entries =>
          ingestorValidationTail vs (entries.map CatalogEntry.forecast_run)
            [.netCatalogRequest] inp

/-! ## Raster materializer (`_ICON2IRetriever.create_timestamp_raster`)

A windowed series for one variable: its time coordinate, its lat/lon
coordinates and one grid of values per timestep. -/

structure SeriesDataset where
  times : List PyDateTime
  lats : List ℚ
  lons : List ℚ
  data : List Grid
deriving Repr

structure RasterArtifact where
  path : String
  bandsCount : Nat
  band_names : List String
  nodata : ℚ
  geotransform : ℚ × ℚ × ℚ × ℚ × ℚ × ℚ
deriving Repr

def datasetName : String := "ICON_2I_SURFACE_PRESSURE_LEVELS"

/-- Attribute access `.isoformat()` on a Python `str` value: strings have
no such attribute, so it raises `AttributeError`. -/
def pyStrIsoformat (s : String) : Except PyExc String :=
  let _ := s
  .error (.attributeError "str object has no attribute isoformat")

/-- `create_timestamp_raster` (lines 236-269).  Line 237 already converts
every time coordinate to its ISO string (`timestamps` is a list of
strings); the default output path uses `timestamps[0]`; the extent and the
north-up geotransform are derived from the lat/lon coordinates; and the
band-name metadata at line 263 applies `.isoformat()` to each element of
`timestamps` — to strings — so building the metadata raises
`AttributeError` whenever there is at least one timestep. -/
def create_timestamp_raster (varCode : String) (ds : SeriesDataset)
    (out : Option String) : Except PyExc RasterArtifact :=
  let timestamps : List String := ds.times.map isoString
  let pathRes : Except PyExc String :=
    match out with
    | some p => .ok p
    | none =>
        match timestamps with
        | [] => .error (.indexError "list index out of range")
        | t0 :: _ =>
            .ok (datasetName ++ "/" ++ varCode ++ "/" ++ datasetName ++ "__" ++
              varCode ++ "__" ++ t0 ++ ".tif")
  match pathRes with
  | .error e => .error e
  | .ok path =>
  match ds.lons.min?, ds.lons.max?, ds.lats.min?, ds.lats.max? with
  | some xmin, some xmax, some ymin, some ymax =>
      let nx : ℚ := (ds.lons.length : ℚ)
      let ny : ℚ := (ds.lats.length : ℚ)
      let psx := (xmax - xmin) / nx
      let psy := (ymax - ymin) / ny
      let _ := ymin
      match timestamps.mapM pyStrIsoformat with
      | .error e => .error e
      | .ok names =>
          .ok { path := path, bandsCount := ds.data.length, band_names := names,
                nodata := -9999, geotransform := (xmin, psx, 0, ymax, 0, -psy) }
  | _, _, _, _ =>
      .error (.valueError "zero-size array to reduction operation")

end Icon2i

namespace Icon2i

/-! ## Helper lemmas -/

lemma npDiff_cons_cons (a b : Grid) (t : List Grid) :
    npDiff (a :: b :: t) = gridSub b a :: npDiff (b :: t) := rfl

lemma npDiff_get? : ∀ (A : List Grid) (i : Nat), i + 1 < A.length →
    (npDiff A).get? i = some (gridSub (A.getD (i + 1) []) (A.getD i []))
  | [], i, h => by simp at h
  | [_], i, h => by simp at h
  | a :: b :: t, 0, _ => by simp [npDiff_cons_cons]
  | a :: b :: t, (i + 1), h => by
      rw [npDiff_cons_cons]
      have ih := npDiff_get? (b :: t) i (by simpa using Nat.lt_of_succ_lt_succ h)
      simpa using ih

lemma clampGrid_nonneg (g : Grid) : ∀ x ∈ clampGrid g, 0 ≤ x := by
  intro x hx
  simp only [clampGrid, List.mem_map] at hx
  obtain ⟨y, _, rfl⟩ := hx
  by_cases hy : y < 0
  · simp [hy]
  · simp [hy, le_of_not_lt hy]

lemma mem_time_concat_clamped (varCode : String) (fileStacks : List (List Grid)) :
    ∀ g ∈ icon_2I_time_concat_data varCode fileStacks, ∃ g0, g = clampGrid g0 := by
  intro g hg
  simp only [icon_2I_time_concat_data, List.mem_map] at hg
  obtain ⟨g0, _, rfl⟩ := hg
  exact ⟨g0, rfl⟩

/-! ## Claim C1 -/

/-- C1: the claim states the first-difference transform is applied if and
only if the variable is marked cumulative.  Evaluation at a non-cumulative
variable (`temperature`) and the stacked array `[[5], [3]]` shows the code
first-differences it all the same: the produced data `[[5], [0]]`
(difference `-2`, clamped) differs from the untouched clamped data
`[[5], [3]]` the claim requires. -/
theorem spec2proof_c1 :
    ("temperature" ∉ cumulativeVariables) ∧
    icon_2I_time_concat_data "temperature" [[[5], [3]]] = [[5], [0]] ∧
    spec_time_concat_data "temperature" [[[5], [3]]] = [[5], [3]] ∧
    icon_2I_time_concat_data "temperature" [[[5], [3]]] ≠
      spec_time_concat_data "temperature" [[[5], [3]]] := by
  refine ⟨by decide, ?_, ?_, ?_⟩
  · norm_num [icon_2I_time_concat_data, decumulate, npDiff, gridSub, clampGrid]
  · simp [spec_time_concat_data, cumulativeVariables, clampGrid]
  · intro h
    have h1 : icon_2I_time_concat_data "temperature" [[[5], [3]]] = [[5], [0]] := by
      norm_num [icon_2I_time_concat_data, decumulate, npDiff, gridSub, clampGrid]
    have h2 : spec_time_concat_data "temperature" [[[5], [3]]] = [[5], [3]] := by
      simp [spec_time_concat_data, cumulativeVariables, clampGrid]
    rw [h1, h2] at h
    simp at h

/-! ## Claim C2 -/

/-- C2: the claim states that materializing any windowed series with at
least one timestep produces a raster with per-band timestamp metadata.
Evaluating `create_timestamp_raster` at a one-timestep series shows it
instead raises `AttributeError`: line 263 applies `.isoformat()` to the
elements of `timestamps`, which line 237 already turned into strings. -/
theorem spec2proof_c2 :
    create_timestamp_raster "total_precipitation"
      { times := [⟨20145, 0, 0, 0, 0⟩], lats := [44], lons := [11], data := [[1]] }
      (some "out.tif")
      = .error (.attributeError "str object has no attribute isoformat") := by
  rfl

/-! ## Claim C3 -/

/-- C3: for a cumulative variable, the de-cumulated result `D` of a
per-file stacked array `A` keeps the first element (`D[0] = A[0]`) and
first-differences the rest (`D[i] = A[i] - A[i-1]` for `0 < i < n`), and
every value of the assembled series is nonnegative after clamping. -/
theorem spec2proof_c3 (varCode : String) (hcum : varCode ∈ cumulativeVariables)
    (A : List Grid) (fileStacks : List (List Grid)) :
    (decumulate A).get? 0 = A.get? 0 ∧
    (∀ i, 0 < i → i < A.length →
        (decumulate A).get? i = some (gridSub (A.getD i []) (A.getD (i - 1) []))) ∧
    (∀ g ∈ icon_2I_time_concat_data varCode fileStacks, ∀ x ∈ g, 0 ≤ x) := by
  refine ⟨?_, ?_, ?_⟩
  · cases A with
    | nil => rfl
    | cons a t => rfl
  · intro i hi hlen
    cases A with
    | nil => simp at hlen
    | cons a t =>
        obtain ⟨j, rfl⟩ := Nat.exists_eq_add_of_lt hi
        simp only [decumulate, Nat.zero_add, List.get?]
        have := npDiff_get? (a :: t) j (by omega)
        simpa using this
  · intro g hg x hx
    obtain ⟨g0, rfl⟩ := mem_time_concat_clamped varCode fileStacks g hg
    exact clampGrid_nonneg g0 x hx

/-- Witness for C3 at the cumulative variable and the stacked array
`[[2], [5]]`. -/
theorem spec2proof_c3_witness :
    ("total_precipitation" ∈ cumulativeVariables) ∧
    ((decumulate [[2], [5]]).get? 0 = ([[2], [5]] : List Grid).get? 0 ∧
     (∀ i, 0 < i → i < ([[2], [5]] : List Grid).length →
        (decumulate [[2], [5]]).get? i =
          some (gridSub (([[2], [5]] : List Grid).getD i [])
            (([[2], [5]] : List Grid).getD (i - 1) []))) ∧
     (∀ g ∈ icon_2I_time_concat_data "total_precipitation" [[[2], [5]]],
        ∀ x ∈ g, 0 ≤ x)) :=
  ⟨by decide, spec2proof_c3 "total_precipitation" (by decide) [[2], [5]] [[[2], [5]]]⟩

/-! ## Claim C4 -/

/-- C4: a date partition produced by the grouping step is kept by
`get_single_date_dataset` exactly when it is not both strictly older than
today and exactly 12 timesteps long. -/
theorem spec2proof_c4 (times : List Int) (today : Int) (p : Int × List Int)
    (hp : p ∈ date_datasets times) :
    p ∈ get_single_date_dataset times today ↔ ¬(p.1 < today ∧ p.2.length = 12) := by
  unfold get_single_date_dataset
  rw [List.mem_filter]
  simp only [hp, true_and, Bool.not_eq_eq_eq_not, Bool.not_true, decide_eq_false_iff_not]

/-- Witness for C4: a same-day partition with 12 timesteps is kept. -/
theorem spec2proof_c4_witness :
    ((6, List.replicate 12 6) ∈ date_datasets (List.replicate 12 6)) ∧
    ((6, List.replicate 12 6) ∈ get_single_date_dataset (List.replicate 12 6) 6 ↔
      ¬((6 : Int) < 6 ∧ (List.replicate 12 (6 : Int)).length = 12)) :=
  ⟨by decide, spec2proof_c4 (List.replicate 12 6) 6 (6, List.replicate 12 6) (by decide)⟩

/-! ## Claim C6 -/

/-- C6: the claim states the backfill ingestion runs exactly once per
retrieve call.  With no `bucket_source` configured and two requested
variables, the availability short-circuit makes every loop iteration miss,
so the full ingestor is invoked once per variable: twice, not once. -/
theorem spec2proof_c6 :
    (retrieve_icon2I_data_model ["total_precipitation", "temperature"] [20145]
      none ⟨[], 0⟩).ingestorRuns = 2 := by
  decide

/-! ## Claim C8 -/

/-- C8: the claim states no file is ever silently skipped.  In a batch
where the first file downloads with status 200 and the second answers 500,
the fetcher returns only the first path — a partial set, with no error
raised. -/
theorem spec2proof_c8_counterexample :
    download_icon2I_data "tmp" [("f1.grib", 200), ("f2.grib", 500)] = ["tmp/f1.grib"] ∧
    (download_icon2I_data "tmp" [("f1.grib", 200), ("f2.grib", 500)]).length ≠ 2 := by
  constructor
  · rfl
  · decide

/-- C8 (amended): a non-success catalog response does surface as an error
(the unbound-local slip of `get_avaliable_forecast_runs`, wrapped as
`ERROR` at the run boundary), but a non-success file download is only
logged and skipped: the fetcher returns exactly the successfully
downloaded paths, and an entirely failed batch yields the empty list. -/
theorem spec2proof_c8 (resp : HttpResponse (List CatalogEntry))
    (hresp : resp.status_code ≠ 200) (tmpFolder : String)
    (responses : List (String × Nat)) :
    (∃ m, get_avaliable_forecast_runs resp = .error (.unboundLocalError m)) ∧
    (∀ p ∈ download_icon2I_data tmpFolder responses,
        ∃ r ∈ responses, r.2 = 200 ∧ p = tmpFolder ++ "/" ++ r.1) ∧
    ((∀ r ∈ responses, r.2 ≠ 200) → download_icon2I_data tmpFolder responses = []) := by
  refine ⟨?_, ?_, ?_⟩
  · exact ⟨"local variable avaliable_data referenced before assignment",
      by simp [get_avaliable_forecast_runs, hresp]⟩
  · intro p hp
    simp only [download_icon2I_data, List.mem_filterMap] at hp
    obtain ⟨r, hr, hpr⟩ := hp
    by_cases h200 : r.2 = 200
    · refine ⟨r, hr, h200, ?_⟩
      rw [if_pos h200] at hpr
      exact (Option.some_injective _ hpr).symm
    · rw [if_neg h200] at hpr
      exact absurd hpr (by simp)
  · intro hall
    simp only [download_icon2I_data]
    rw [List.filterMap_eq_nil_iff]
    intro r hr
    rw [if_neg (hall r hr)]

/-- Witness for C8 at a 500 catalog response and a batch whose single file
answers 500. -/
theorem spec2proof_c8_witness :
    ((500 : Nat) ≠ 200) ∧
    ((∃ m, get_avaliable_forecast_runs ⟨500, []⟩ = .error (.unboundLocalError m)) ∧
     (∀ p ∈ download_icon2I_data "t" [("f", 500)],
        ∃ r ∈ [("f", (500 : Nat))], r.2 = 200 ∧ p = "t" ++ "/" ++ r.1) ∧
     ((∀ r ∈ [("f", (500 : Nat))], r.2 ≠ 200) →
        download_icon2I_data "t" [("f", 500)] = [])) :=
  ⟨by decide, spec2proof_c8 ⟨500, []⟩ (by decide) "t" [("f", 500)]⟩

end Icon2i

namespace Icon2i

/-! ## Claim C5 -/

lemma resolverStep_hit (allVars : List String) (requestedDates : List Int)
    (b : String) (st : ResolverState) (v : String)
    (hall : ∀ d ∈ requestedDates, (v, d) ∈ st.bucket) :
    resolverStep allVars requestedDates (some b) st v = st := by
  have hcheck : requestedDates.all (fun d => decide ((v, d) ∈ st.bucket)) = true := by
    rw [List.all_eq_true]
    intro d hd
    exact decide_eq_true (hall d hd)
  unfold resolverStep check_date_dataset_avaliability
  simp [hcheck]

lemma resolver_fold_all_hit (allVars : List String) (requestedDates : List Int)
    (b : String) (bucket0 : List (String × Int)) (n : Nat) :
    ∀ vs : List String, (∀ v ∈ vs, ∀ d ∈ requestedDates, (v, d) ∈ bucket0) →
      vs.foldl (resolverStep allVars requestedDates (some b)) ⟨bucket0, n⟩ =
        ⟨bucket0, n⟩ := by
  intro vs
  induction vs with
  | nil => intro _; rfl
  | cons v rest ih =>
      intro hall
      rw [List.foldl_cons,
        resolverStep_hit allVars requestedDates b ⟨bucket0, n⟩ v
          (hall v (by simp))]
      exact ih (fun w hw => hall w (by simp [hw]))

/-- C5: with a `bucket_source` configured and every required partition of
every requested variable already present in it, the resolver leaves the
store untouched and never invokes the ingestion path. -/
theorem spec2proof_c5 (vars : List String) (requestedDates : List Int) (b : String)
    (bucket0 : List (String × Int))
    (hall : ∀ v ∈ vars, ∀ d ∈ requestedDates, (v, d) ∈ bucket0) :
    retrieve_icon2I_data_model vars requestedDates (some b) ⟨bucket0, 0⟩ =
      ⟨bucket0, 0⟩ ∧
    (retrieve_icon2I_data_model vars requestedDates (some b)
      ⟨bucket0, 0⟩).ingestorRuns = 0 := by
  have h := resolver_fold_all_hit vars requestedDates b bucket0 0 vars hall
  unfold retrieve_icon2I_data_model
  exact ⟨h, by rw [h]⟩

/-- Witness for C5 at one variable, one date and a store holding that
partition. -/
theorem spec2proof_c5_witness :
    (∀ v ∈ ["total_precipitation"], ∀ d ∈ [(20145 : Int)],
        (v, d) ∈ [("total_precipitation", (20145 : Int))]) ∧
    (retrieve_icon2I_data_model ["total_precipitation"] [20145] (some "s3://b")
        ⟨[("total_precipitation", 20145)], 0⟩ =
      ⟨[("total_precipitation", 20145)], 0⟩ ∧
     (retrieve_icon2I_data_model ["total_precipitation"] [20145] (some "s3://b")
        ⟨[("total_precipitation", 20145)], 0⟩).ingestorRuns = 0) :=
  ⟨by decide,
   spec2proof_c5 ["total_precipitation"] [20145] "s3://b"
     [("total_precipitation", 20145)] (by decide)⟩

/-! ## Claim C7 -/

lemma validateVariableArg_error_invalid (v : Option (List String)) (e : PyExc)
    (h : validateVariableArg v = .error e) : ∃ m, e = .statusExc .INVALID m := by
  unfold validateVariableArg at h
  cases v with
  | none => simp at h
  | some vs =>
      dsimp only at h
      by_cases hv : vs.all (fun x => decide (x ∈ variableCodes)) = true
      · rw [if_pos hv] at h
        simp at h
      · rw [if_neg hv] at h
        exact ⟨_, (Except.error.inj h).symm⟩

lemma validateLatRange_91_92 :
    validateLatRange (some [91, 92]) =
      .error (.statusExc .INVALID "lat_range elements must be in the range [-90, 90]") := by
  norm_num [validateLatRange]

/-- C7: a retrieval request with `lat_range = [91, 92]` makes the
validation raise `INVALID`, and `run` surfaces that same `INVALID`
status (whatever the downstream pipeline and the current time are). -/
theorem spec2proof_c7 (inp : RetInputs) (now : PyDateTime)
    (pipeline : RetValidated → Except PyExc String)
    (hlat : inp.lat_range = some [91, 92]) :
    raisesINVALID (retriever_argument_validation inp now).2 = true ∧
    (∃ m, retriever_run_model pipeline inp now = .error (.statusExc .INVALID m)) := by
  have hval : ∃ m, (retriever_argument_validation inp now).2 =
      .error (.statusExc .INVALID m) := by
    unfold retriever_argument_validation
    cases h1 : validateVariableArg inp.variableArg with
    | error e =>
        obtain ⟨m, rfl⟩ := validateVariableArg_error_invalid _ _ h1
        exact ⟨m, by simp⟩
    | ok vs =>
        rw [hlat]
        simp [validateLatRange_91_92]
  obtain ⟨m, hm⟩ := hval
  refine ⟨by rw [hm]; rfl, m, ?_⟩
  unfold retriever_run_model
  rw [hm]
  rfl

/-- Witness for C7 at a fully concrete request. -/
theorem spec2proof_c7_witness :
    ({ variableArg := none, lat_range := some [91, 92], long_range := none,
       time_range := .noTime, out_format := none, bucket_source := none,
       bucket_destination := none, out := none } : RetInputs).lat_range =
        some [91, 92] ∧
    (raisesINVALID (retriever_argument_validation
        { variableArg := none, lat_range := some [91, 92], long_range := none,
          time_range := .noTime, out_format := none, bucket_source := none,
          bucket_destination := none, out := none } ⟨0, 0, 0, 0, 0⟩).2 = true ∧
     (∃ m, retriever_run_model (fun _ => .ok "")
        { variableArg := none, lat_range := some [91, 92], long_range := none,
          time_range := .noTime, out_format := none, bucket_source := none,
          bucket_destination := none, out := none } ⟨0, 0, 0, 0, 0⟩ =
        .error (.statusExc .INVALID m))) :=
  ⟨rfl, spec2proof_c7 _ ⟨0, 0, 0, 0, 0⟩ (fun _ => .ok "") rfl⟩

end Icon2i

namespace Icon2i

/-! ## Claim C9 -/

/-- C9: the claim states every `INVALID` failure is raised before the
first network request or filesystem write.  In the ingestor, a request
with a well-formed forecast run and a malformed `bucket_destination`
first resolves the run against the catalog — a network request — and
raises the `bucket_destination` `INVALID` only afterwards. -/
theorem spec2proof_c9_counterexample :
    (ingestor_argument_validation ⟨200, []⟩
        { variableArg := some ["total_precipitation"],
          forecast_run := some [⟨some ⟨20145, 0, 0, 0, 0⟩⟩],
          bucket_destination := some "bucket", out_dir := none }).1 =
      [IOEvent.netCatalogRequest] ∧
    raisesINVALID (ingestor_argument_validation ⟨200, []⟩
        { variableArg := some ["total_precipitation"],
          forecast_run := some [⟨some ⟨20145, 0, 0, 0, 0⟩⟩],
          bucket_destination := some "bucket", out_dir := none }).2 = true := by
  constructor
  · decide
  · decide

lemma filterAvailableRuns_events_net (cat : HttpResponse (List CatalogEntry)) :
    ∀ runs : List PyDateTime,
      ((filterAvailableRuns cat runs).1).all IOEvent.isNet = true := by
  intro runs
  induction runs with
  | nil => rfl
  | cons r rest ih =>
      unfold filterAvailableRuns
      cases h : get_avaliable_forecast_runs cat with
      | error e => rfl
      | ok entries => simpa [IOEvent.isNet] using ih

lemma ingestorOutDirStep_ok (vs : List String) (runs : List PyDateTime)
    (evs : List IOEvent) (inp : IngInputs) :
    ∃ evs2 vld,
      ingestorOutDirStep vs runs evs inp = (evs2, .ok vld) := by
  unfold ingestorOutDirStep
  cases inp.out_dir with
  | none => exact ⟨_, _, rfl⟩
  | some d => exact ⟨_, _, rfl⟩

lemma ingestorValidationTail_error_events (vs : List String)
    (runs : List PyDateTime) (evs : List IOEvent) (inp : IngInputs)
    (e : PyExc) (evs2 : List IOEvent)
    (h : ingestorValidationTail vs runs evs inp = (evs2, .error e)) : evs2 = evs := by
  unfold ingestorValidationTail at h
  cases hb : inp.bucket_destination with
  | none =>
      rw [hb] at h
      obtain ⟨evs3, vld, h3⟩ := ingestorOutDirStep_ok vs runs evs inp
      rw [h3] at h
      simp at h
  | some b =>
      rw [hb] at h
      dsimp only at h
      by_cases hs : pyStartsWith b "s3://" = true
      · rw [if_pos hs] at h
        obtain ⟨evs3, vld, h3⟩ := ingestorOutDirStep_ok vs runs evs inp
        rw [h3] at h
        simp at h
      · rw [if_neg hs] at h
        exact (Prod.mk.injEq .. ▸ h).1.symm ▸ rfl

lemma ingestor_invalid_events (cat : HttpResponse (List CatalogEntry))
    (inp : IngInputs)
    (h : raisesINVALID (ingestor_argument_validation cat inp).2 = true) :
    ((ingestor_argument_validation cat inp).1).all IOEvent.isNet = true := by
  unfold ingestor_argument_validation at h ⊢
  cases h1 : validateVariableArg inp.variableArg with
  | error e => simp only [h1]; rfl
  | ok vs =>
      simp only [h1] at h ⊢
      cases hfr : inp.forecast_run with
      | some frs =>
          simp only [hfr] at h ⊢
          cases h2 : parseForecastRuns frs with
          | error e => simp only [h2]; rfl
          | ok runs =>
              simp only [h2] at h ⊢
              have hnet := filterAvailableRuns_events_net cat runs
              rcases h3 : filterAvailableRuns cat runs with ⟨evs, res⟩
              rw [h3] at hnet
              cases res with
              | error e => simp only [h3]; exact hnet
              | ok kept =>
                  simp only [h3] at h ⊢
                  rcases h4 : ingestorValidationTail vs kept evs inp with ⟨evs2, res2⟩
                  cases res2 with
                  | error e =>
                      rw [ingestorValidationTail_error_events vs kept evs inp e evs2 h4]
                      exact hnet
                  | ok vld =>
                      rw [h4] at h
                      simp [raisesINVALID] at h
      | none =>
          simp only [hfr] at h ⊢
          cases h2 : get_avaliable_forecast_runs cat with
          | error e => simp only [h2]; rfl
          | ok entries =>
              simp only [h2] at h ⊢
              rcases h4 : ingestorValidationTail vs (entries.map CatalogEntry.forecast_run)
                  [IOEvent.netCatalogRequest] inp with ⟨evs2, res2⟩
              cases res2 with
              | error e =>
                  rw [ingestorValidationTail_error_events vs _ _ inp e evs2 h4]
                  rfl
              | ok vld =>
                  rw [h4] at h
                  simp [raisesINVALID] at h

lemma validateOut_error_events (o : Option String) (e : PyExc)
    (h : (validateOut o).2 = .error e) : (validateOut o).1 = [] := by
  unfold validateOut at h ⊢
  cases o with
  | none => rfl
  | some s =>
      dsimp only at h ⊢
      by_cases h1 : pyEndsWith s ".tif" = true
      · rw [if_pos h1] at h ⊢
        by_cases h2 : dirnameOf s = ""
        · rw [if_pos h2]
        · rw [if_neg h2] at h
          simp at h
      · rw [if_neg h1]

lemma retriever_invalid_events (inp : RetInputs) (now : PyDateTime)
    (h : raisesINVALID (retriever_argument_validation inp now).2 = true) :
    (retriever_argument_validation inp now).1 = [] := by
  unfold retriever_argument_validation at h ⊢
  cases h1 : validateVariableArg inp.variableArg with
  | error e => simp only [h1]
  | ok vs =>
  simp only [h1] at h ⊢
  cases h2 : validateLatRange inp.lat_range with
  | error e => simp only [h2]
  | ok lr =>
  simp only [h2] at h ⊢
  cases h3 : validateLongRange inp.long_range with
  | error e => simp only [h3]
  | ok gr =>
  simp only [h3] at h ⊢
  cases h4 : validateTimeRange inp.time_range now with
  | error e => simp only [h4]
  | ok tse =>
  simp only [h4] at h ⊢
  cases h5 : validateOutFormat inp.out_format with
  | error e => simp only [h5]
  | ok fmt =>
  simp only [h5] at h ⊢
  cases h6 : validateBucketDestination inp.bucket_destination with
  | error e => simp only [h6]
  | ok bd =>
  simp only [h6] at h ⊢
  cases h7 : validateBucketSource inp.bucket_source bd with
  | error e => simp only [h7]
  | ok bs =>
  simp only [h7] at h ⊢
  rcases h8 : validateOut inp.out with ⟨evs, res⟩
  cases res with
  | error e =>
      have := validateOut_error_events inp.out e (by rw [h8])
      rw [h8] at this
      simp only [h8]
      exact this
  | ok o =>
      rw [h8] at h
      simp [raisesINVALID] at h

/-- C9 (amended): in the retriever, every `INVALID` validation failure is
raised before any network or filesystem I/O; in the ingestor, the
`variable` and `forecast_run` format failures are likewise raised before
any I/O, but the catalog network requests issued to resolve the forecast
runs precede the `bucket_destination` and `out_dir` checks, so an
`INVALID` raised there can follow network requests — never a filesystem
write. -/
theorem spec2proof_c9 :
    (∀ (catalogResp : HttpResponse (List CatalogEntry)) (inp : IngInputs),
        raisesINVALID (ingestor_argument_validation catalogResp inp).2 = true →
        ((ingestor_argument_validation catalogResp inp).1).all IOEvent.isNet = true) ∧
    (∀ (inp : RetInputs) (now : PyDateTime),
        raisesINVALID (retriever_argument_validation inp now).2 = true →
        (retriever_argument_validation inp now).1 = []) :=
  ⟨ingestor_invalid_events, retriever_invalid_events⟩

/-- Witness for C9: an ingestor request failing `INVALID` after its
catalog request, and a retriever request failing `INVALID` with an empty
trace. -/
theorem spec2proof_c9_witness :
    (raisesINVALID (ingestor_argument_validation ⟨200, []⟩
        { variableArg := some ["temperature"],
          forecast_run := some [⟨some ⟨20145, 12, 0, 0, 0⟩⟩],
          bucket_destination := some "nope", out_dir := none }).2 = true ∧
     ((ingestor_argument_validation ⟨200, []⟩
        { variableArg := some ["temperature"],
          forecast_run := some [⟨some ⟨20145, 12, 0, 0, 0⟩⟩],
          bucket_destination := some "nope", out_dir := none }).1).all
        IOEvent.isNet = true) ∧
    (raisesINVALID (retriever_argument_validation
        { variableArg := none, lat_range := none, long_range := none,
          time_range := .noTime, out_format := none, bucket_source := none,
          bucket_destination := none, out := none } ⟨0, 0, 0, 0, 0⟩).2 = true ∧
     (retriever_argument_validation
        { variableArg := none, lat_range := none, long_range := none,
          time_range := .noTime, out_format := none, bucket_source := none,
          bucket_destination := none, out := none } ⟨0, 0, 0, 0, 0⟩).1 = []) :=
  ⟨⟨by rfl, spec2proof_c9.1 ⟨200, []⟩
      { variableArg := some ["temperature"],
        forecast_run := some [⟨some ⟨20145, 12, 0, 0, 0⟩⟩],
        bucket_destination := some "nope", out_dir := none } (by rfl)⟩,
   ⟨by rfl, spec2proof_c9.2
      { variableArg := none, lat_range := none, long_range := none,
        time_range := .noTime, out_format := none, bucket_source := none,
        bucket_destination := none, out := none } ⟨0, 0, 0, 0, 0⟩ (by rfl)⟩⟩

end Icon2i

namespace Icon2i

/-! ## Claim C10 -/

lemma validateBucketDestination_ok (b : String) (x : Option String)
    (h : validateBucketDestination (some b) = .ok x) :
    x = some b ∧ pyStartsWith b "s3://" = true := by
  unfold validateBucketDestination at h
  dsimp only at h
  by_cases hs : pyStartsWith b "s3://" = true
  · rw [if_pos hs] at h
    exact ⟨(Except.ok.inj h).symm, hs⟩
  · rw [if_neg hs] at h
    simp at h

lemma validateBucketSource_none (bd : Option String) :
    validateBucketSource none bd = .ok bd := rfl

lemma validateBucketSource_some_ok (s : String) (bd : Option String)
    (hs : pyStartsWith s "s3://" = true) :
    validateBucketSource (some s) bd = .ok (some s) := by
  unfold validateBucketSource
  dsimp only
  rw [if_pos hs]

/-- C10: when `bucket_source` is absent and `bucket_destination` is given,
validation resolves `bucket_source` to `bucket_destination`: the whole
validation (and hence the resolver fed with its output — existence check,
fetch, and the backfill ingestion upload destination alike) behaves
exactly as if `bucket_source := bucket_destination` had been passed, and
on success the validated `bucket_source` equals `bucket_destination`. -/
theorem spec2proof_c10 (inp : RetInputs) (now : PyDateTime) (b : String)
    (hbs : inp.bucket_source = none) (hbd : inp.bucket_destination = some b) :
    retriever_argument_validation inp now =
      retriever_argument_validation { inp with bucket_source := some b } now ∧
    (∀ evs v, retriever_argument_validation inp now = (evs, .ok v) →
        v.bucket_source = some b ∧ v.bucket_destination = some b) ∧
    (∀ (requestedDates : List Int) (bucket0 : List (String × Int)),
        resolver_after_validation inp now requestedDates bucket0 =
          resolver_after_validation { inp with bucket_source := some b } now
            requestedDates bucket0) := by
  obtain ⟨va, lr, gr, tr, fmt, bs, bd, o⟩ := inp
  dsimp only at hbs hbd
  subst hbs
  subst hbd
  have hmain : retriever_argument_validation ⟨va, lr, gr, tr, fmt, none, some b, o⟩ now =
      retriever_argument_validation ⟨va, lr, gr, tr, fmt, some b, some b, o⟩ now := by
    unfold retriever_argument_validation
    dsimp only
    cases h1 : validateVariableArg va with
    | error e => simp only [h1]
    | ok vs =>
    simp only [h1]
    cases h2 : validateLatRange lr with
    | error e => simp only [h2]
    | ok lr2 =>
    simp only [h2]
    cases h3 : validateLongRange gr with
    | error e => simp only [h3]
    | ok gr2 =>
    simp only [h3]
    cases h4 : validateTimeRange tr now with
    | error e => simp only [h4]
    | ok tse =>
    simp only [h4]
    cases h5 : validateOutFormat fmt with
    | error e => simp only [h5]
    | ok fmt2 =>
    simp only [h5]
    cases h6 : validateBucketDestination (some b) with
    | error e => simp only [h6]
    | ok bd2 =>
    simp only [h6]
    obtain ⟨rfl, hs⟩ := validateBucketDestination_ok b bd2 h6
    rw [validateBucketSource_none, validateBucketSource_some_ok b (some b) hs]
  refine ⟨hmain, ?_, ?_⟩
  · intro evs v h
    unfold retriever_argument_validation at h
    dsimp only at h
    cases h1 : validateVariableArg va with
    | error e => rw [h1] at h; simp at h
    | ok vs =>
    rw [h1] at h
    cases h2 : validateLatRange lr with
    | error e => rw [h2] at h; simp at h
    | ok lr2 =>
    rw [h2] at h
    cases h3 : validateLongRange gr with
    | error e => rw [h3] at h; simp at h
    | ok gr2 =>
    rw [h3] at h
    cases h4 : validateTimeRange tr now with
    | error e => rw [h4] at h; simp at h
    | ok tse =>
    rw [h4] at h
    cases h5 : validateOutFormat fmt with
    | error e => rw [h5] at h; simp at h
    | ok fmt2 =>
    rw [h5] at h
    cases h6 : validateBucketDestination (some b) with
    | error e => rw [h6] at h; simp at h
    | ok bd2 =>
    rw [h6] at h
    obtain ⟨rfl, hs⟩ := validateBucketDestination_ok b bd2 h6
    dsimp only at h
    rw [validateBucketSource_none] at h
    dsimp only at h
    rcases h8 : validateOut o with ⟨evs2, res⟩
    rw [h8] at h
    cases res with
    | error e => simp at h
    | ok o2 =>
        simp only [Prod.mk.injEq, Except.ok.injEq] at h
        obtain ⟨-, rfl⟩ := h
        exact ⟨rfl, rfl⟩
  · intro requestedDates bucket0
    unfold resolver_after_validation
    rw [hmain]

/-- Witness for C10 at a concrete request with only a destination bucket
configured. -/
theorem spec2proof_c10_witness :
    ({ variableArg := none, lat_range := none, long_range := none,
       time_range := .single ⟨some ⟨20145, 6, 0, 0, 0⟩⟩, out_format := none,
       bucket_source := none, bucket_destination := some "s3://dest",
       out := none } : RetInputs).bucket_source = none ∧
    ({ variableArg := none, lat_range := none, long_range := none,
       time_range := .single ⟨some ⟨20145, 6, 0, 0, 0⟩⟩, out_format := none,
       bucket_source := none, bucket_destination := some "s3://dest",
       out := none } : RetInputs).bucket_destination = some "s3://dest" ∧
    (retriever_argument_validation
        { variableArg := none, lat_range := none, long_range := none,
          time_range := .single ⟨some ⟨20145, 6, 0, 0, 0⟩⟩, out_format := none,
          bucket_source := none, bucket_destination := some "s3://dest",
          out := none } ⟨20145, 7, 0, 0, 0⟩ =
      retriever_argument_validation
        { variableArg := none, lat_range := none, long_range := none,
          time_range := .single ⟨some ⟨20145, 6, 0, 0, 0⟩⟩, out_format := none,
          bucket_source := some "s3://dest", bucket_destination := some "s3://dest",
          out := none } ⟨20145, 7, 0, 0, 0⟩ ∧
     (∀ evs v, retriever_argument_validation
        { variableArg := none, lat_range := none, long_range := none,
          time_range := .single ⟨some ⟨20145, 6, 0, 0, 0⟩⟩, out_format := none,
          bucket_source := none, bucket_destination := some "s3://dest",
          out := none } ⟨20145, 7, 0, 0, 0⟩ = (evs, .ok v) →
        v.bucket_source = some "s3://dest" ∧
        v.bucket_destination = some "s3://dest") ∧
     (∀ (requestedDates : List Int) (bucket0 : List (String × Int)),
        resolver_after_validation
          { variableArg := none, lat_range := none, long_range := none,
            time_range := .single ⟨some ⟨20145, 6, 0, 0, 0⟩⟩, out_format := none,
            bucket_source := none, bucket_destination := some "s3://dest",
            out := none } ⟨20145, 7, 0, 0, 0⟩ requestedDates bucket0 =
          resolver_after_validation
            { variableArg := none, lat_range := none, long_range := none,
              time_range := .single ⟨some ⟨20145, 6, 0, 0, 0⟩⟩, out_format := none,
              bucket_source := some "s3://dest",
              bucket_destination := some "s3://dest",
              out := none } ⟨20145, 7, 0, 0, 0⟩ requestedDates bucket0)) :=
  ⟨rfl, rfl, spec2proof_c10 _ ⟨20145, 7, 0, 0, 0⟩ "s3://dest" rfl rfl⟩

end Icon2i
